import Mathlib

/-!
Verification of the Parkinson clinical-outcome statistics scripts.

The repository has two versions of one pipeline:
`pd_clinical/pd_clinical_outcome_stats.py` (validated version) and
`python_696_project/compute_co-relations.py` (earlier version).
Both read an Excel workbook, derive a voltage-normalized motor-improvement
score and a percent-STN-activation score per patient and side, and run a
rank-sum test on the improvement scores.

The development has three layers:
* a typed record model of the parsed sheets (`MotorRecord`, `VolumeRecord`)
  over exact rationals, with an extended-float type `PFloat` capturing the
  IEEE/pandas semantics of division (division by zero yields `inf`/`ninf`/
  `nan`, never an exception);
* a frame-level model (`Frame` of named columns of `Cell`s) of the pipeline
  and its exception behaviour (`KeyError` for a missing sheet or column,
  `TypeError` for non-numeric data), mirroring `main`'s handler and exit
  codes;
* a model of `scipy.stats.ranksums` over exact rational ranks, a real-valued
  extended-float type `RFloat`, and the standard normal survival function.
-/

open MeasureTheory ProbabilityTheory

/-- Exit code constant `SUCCESS = 0` from `pd_clinical_outcome_stats.py`. -/
def SUCCESS : ℕ := 0

/-- Exit code constant `INVALID_DATA = 1`. -/
def INVALID_DATA : ℕ := 1

/-- Exit code constant `IO_ERROR = 2`. -/
def IO_ERROR : ℕ := 2

/-- Extended float value over exact rationals: a finite number, a signed
infinity, or a not-a-number, modelling the results numpy/pandas arithmetic
can produce on sheet data. -/
inductive PFloat where
  | num (q : ℚ)
  | inf
  | ninf
  | nan
deriving DecidableEq

/-- Division of two finite values with the IEEE semantics used by pandas:
a nonzero value divided by zero gives a signed infinity, `0/0` gives `nan`,
and otherwise the exact quotient. -/
def qdiv (a b : ℚ) : PFloat :=
  if b = 0 then (if a = 0 then .nan else if 0 < a then .inf else .ninf)
  else .num (a / b)

/-- Division of an extended float by a finite value (IEEE semantics;
`+inf / +0 = +inf`). -/
def PFloat.divq : PFloat → ℚ → PFloat
  | .num a, b => qdiv a b
  | .inf, b => if b < 0 then .ninf else .inf
  | .ninf, b => if b < 0 then .inf else .ninf
  | .nan, _ => .nan

/-- Multiplication of an extended float by a finite value (IEEE semantics;
`inf * 0 = nan`). -/
def PFloat.mulq : PFloat → ℚ → PFloat
  | .num a, b => .num (a * b)
  | .inf, b => if b = 0 then .nan else if 0 < b then .inf else .ninf
  | .ninf, b => if b = 0 then .nan else if 0 < b then .ninf else .inf
  | .nan, _ => .nan

/-- One row of a motor-score sheet (`LSTN_activation` / `RSTN_activation`):
columns `Patient`, `Side`, `Motor score (on stim)`, `Motor score (off stim)`,
`Voltage [V]`. -/
structure MotorRecord where
  patient : ℚ
  side : String
  motor_score_on_stim : ℚ
  motor_score_off_stim : ℚ
  voltage : ℚ
deriving DecidableEq

/-- Side of the brain, the `'L'` / `'R'` tag passed to
`process_stn_activation`. -/
inductive Side where
  | L
  | R
deriving DecidableEq

/-- One row of the volume sheet (`dvSTN_activation`), carrying both the
single-column schema (`STN vol (<side>) [mm3]`, `VTA inside STN (<side>)
[mm3]`) used by the validated version and the split dorsal/ventral schema
(`dSTN vol`, `vSTN vol`, `VTA inside dSTN`, `VTA inside vSTN`) used by the
earlier version. -/
structure VolumeRecord where
  patient : ℚ
  stn_vol_L : ℚ
  stn_vol_R : ℚ
  vta_stn_L : ℚ
  vta_stn_R : ℚ
  dstn_vol_L : ℚ
  dstn_vol_R : ℚ
  vstn_vol_L : ℚ
  vstn_vol_R : ℚ
  vta_dstn_L : ℚ
  vta_dstn_R : ℚ
  vta_vstn_L : ℚ
  vta_vstn_R : ℚ
deriving DecidableEq

/-- Column `STN vol (<side>) [mm3]` of a volume row. -/
def VolumeRecord.stn_vol (r : VolumeRecord) : Side → ℚ
  | .L => r.stn_vol_L
  | .R => r.stn_vol_R

/-- Column `VTA inside STN (<side>) [mm3]` of a volume row. -/
def VolumeRecord.vta_inside_stn (r : VolumeRecord) : Side → ℚ
  | .L => r.vta_stn_L
  | .R => r.vta_stn_R

/-- Column `dSTN vol (<side>) [mm3]` of a volume row. -/
def VolumeRecord.dstn_vol (r : VolumeRecord) : Side → ℚ
  | .L => r.dstn_vol_L
  | .R => r.dstn_vol_R

/-- Column `vSTN vol (<side>) [mm3]` of a volume row. -/
def VolumeRecord.vstn_vol (r : VolumeRecord) : Side → ℚ
  | .L => r.vstn_vol_L
  | .R => r.vstn_vol_R

/-- Column `VTA inside dSTN (<side>) [mm3]` of a volume row. -/
def VolumeRecord.vta_inside_dstn (r : VolumeRecord) : Side → ℚ
  | .L => r.vta_dstn_L
  | .R => r.vta_dstn_R

/-- Column `VTA inside vSTN (<side>) [mm3]` of a volume row. -/
def VolumeRecord.vta_inside_vstn (r : VolumeRecord) : Side → ℚ
  | .L => r.vta_vstn_L
  | .R => r.vta_vstn_R

/-- Comparator used by `df.sort_values(['Patient'])`: order rows by the
`Patient` column. -/
def leMotor (a b : MotorRecord) : Prop := a.patient ≤ b.patient

instance : DecidableRel leMotor := fun a b => inferInstanceAs (Decidable (a.patient ≤ b.patient))

/-- Comparator used by `df.sort_values(['Patient'])` on the volume sheet. -/
def leVolume (a b : VolumeRecord) : Prop := a.patient ≤ b.patient

instance : DecidableRel leVolume := fun a b => inferInstanceAs (Decidable (a.patient ≤ b.patient))

/-- Model of `process_lstn_activation(df)` (lines 131-145 of
`pd_clinical_outcome_stats.py`, identical in the earlier version): sort rows
by `Patient`, extract the five columns, and compute the element-wise series
`(motor_score_off_stim / motor_score_on_stim) / voltage`. -/
def process_lstn_activation (df : List MotorRecord) : List PFloat :=
  let df := List.insertionSort leMotor df
  let _patients := df.map (·.patient)
  let _side := df.map (·.side)
  let motor_score_on_stim := df.map (·.motor_score_on_stim)
  let motor_score_off_stim := df.map (·.motor_score_off_stim)
  let voltage := df.map (·.voltage)
  List.zipWith PFloat.divq (List.zipWith qdiv motor_score_off_stim motor_score_on_stim) voltage

/-- Model of the validated `process_stn_activation(df, side)` (lines 148-163
of `pd_clinical_outcome_stats.py`): sort rows by `Patient`, read the columns
`STN vol (<side>) [mm3]` and `VTA inside STN (<side>) [mm3]`, and compute the
element-wise series `(left_active_stn / left_stn_vol) * 100`. -/
def process_stn_activation (df : List VolumeRecord) (side : Side) : List PFloat :=
  let df := List.insertionSort leVolume df
  let left_stn_vol := df.map (·.stn_vol side)
  let left_active_stn := df.map (·.vta_inside_stn side)
  (List.zipWith qdiv left_active_stn left_stn_vol).map (·.mulq 100)

/-- Model of the earlier `process_stn_activation(df, side)` (lines 86-98 of
`compute_co-relations.py`): sort rows by `Patient`, sum the dorsal and
ventral structure-volume columns and the dorsal and ventral activated-volume
columns, and compute `(left_active_stn / left_stn_vol) * 100`. -/
def process_stn_activation_696 (df : List VolumeRecord) (side : Side) : List PFloat :=
  let df := List.insertionSort leVolume df
  let dstn_vol := df.map (·.dstn_vol side)
  let vstn_vol := df.map (·.vstn_vol side)
  let left_stn_vol := List.zipWith (· + ·) dstn_vol vstn_vol
  let vta_inside_dstn := df.map (·.vta_inside_dstn side)
  let vta_inside_vstn := df.map (·.vta_inside_vstn side)
  let left_active_stn := List.zipWith (· + ·) vta_inside_dstn vta_inside_vstn
  (List.zipWith qdiv left_active_stn left_stn_vol).map (·.mulq 100)

/-- One spreadsheet cell as `pandas` sees it after parsing: either a numeric
value (modelled exactly as a rational) or a string, which makes the column
`object`-dtype and makes arithmetic on it raise `TypeError`. -/
inductive Cell where
  | num (q : ℚ)
  | str (s : String)
deriving DecidableEq

/-- Errors raised by the data-handling part of the pipeline: `keyError`
models Python `KeyError` (missing sheet or missing column), `typeError`
models Python `TypeError` (non-numeric data in an arithmetic column). -/
inductive DataErr where
  | keyError
  | typeError
deriving DecidableEq

/-- A parsed sheet as a dataframe: named columns of cells. -/
abbrev Frame := List (String × List Cell)

/-- Column access `df[name]`; a missing column raises `KeyError`. -/
def getCol (df : Frame) (name : String) : Except DataErr (List Cell) :=
  match df.lookup name with
  | some c => .ok c
  | none => .error .keyError

/-- Interpret a column as numeric data; any string cell makes pandas
arithmetic on the column raise `TypeError`. -/
def colToNums (c : List Cell) : Except DataErr (List ℚ) :=
  c.mapM fun
    | .num q => .ok q
    | .str _ => .error .typeError

/-- Model of `df.sort_values(['Patient'])` on a dataframe: read the
`Patient` column (`KeyError` if absent, `TypeError` if not comparable),
stably sort the row indices by that key, and reorder every column by the
resulting permutation. -/
def sort_values (df : Frame) : Except DataErr Frame := do
  let patCol ← getCol df "Patient"
  let keys ← colToNums patCol
  let idx := List.insertionSort (fun i j => keys.getD i 0 ≤ keys.getD j 0) (List.range keys.length)
  pure (df.map fun col => (col.1, idx.map fun i => col.2.getD i (.num 0)))

/-- Element-wise division of two cell columns, as in
`motor_score_off_stim / motor_score_on_stim`: `TypeError` on string cells,
IEEE division otherwise. -/
def seriesDivCC (a b : List Cell) : Except DataErr (List PFloat) := do
  let na ← colToNums a
  let nb ← colToNums b
  pure (List.zipWith qdiv na nb)

/-- Element-wise division of a derived float series by a cell column, as in
`(...) / voltage`. -/
def seriesDivFC (a : List PFloat) (b : List Cell) : Except DataErr (List PFloat) := do
  let nb ← colToNums b
  pure (List.zipWith PFloat.divq a nb)

/-- Element-wise sum of two cell columns, as in `dstn_vol + vstn_vol`. -/
def seriesAddCC (a b : List Cell) : Except DataErr (List ℚ) := do
  let na ← colToNums a
  let nb ← colToNums b
  pure (List.zipWith (· + ·) na nb)

/-- Frame-level model of `process_lstn_activation(df)`: sort by `Patient`,
extract the five named columns (each absent column raises `KeyError`), and
compute `(motor_score_off_stim / motor_score_on_stim) / voltage`. -/
def process_lstn_activation_frame (df : Frame) : Except DataErr (List PFloat) := do
  let df ← sort_values df
  let _patients ← getCol df "Patient"
  let _side ← getCol df "Side"
  let motor_score_on_stim ← getCol df "Motor score (on stim)"
  let motor_score_off_stim ← getCol df "Motor score (off stim)"
  let voltage ← getCol df "Voltage [V]"
  let quotients ← seriesDivCC motor_score_off_stim motor_score_on_stim
  seriesDivFC quotients voltage

/-- Column name `'STN vol (' + side + ') [mm3]'` selected by the validated
`process_stn_activation`. -/
def stn_vol_col (side : String) : String := "STN vol (" ++ side ++ ") [mm3]"

/-- Column name `'VTA inside STN (' + side + ') [mm3]'` selected by the
validated `process_stn_activation`. -/
def vta_inside_stn_col (side : String) : String := "VTA inside STN (" ++ side ++ ") [mm3]"

/-- Frame-level model of the validated `process_stn_activation(df, side)`:
sort by `Patient`, read the side-tagged total-volume and activated-volume
columns, and compute `(left_active_stn / left_stn_vol) * 100`. -/
def process_stn_activation_frame (df : Frame) (side : String) : Except DataErr (List PFloat) := do
  let df ← sort_values df
  let left_stn_vol ← getCol df (stn_vol_col side)
  let left_active_stn ← getCol df (vta_inside_stn_col side)
  let quotients ← seriesDivCC left_active_stn left_stn_vol
  pure (quotients.map (·.mulq 100))

/-- The four derived score series produced by `compute_stn_activation`; the
Wilcoxon text report and the scatter plot are rendered from these series by
side-effecting library calls outside this model. -/
structure DerivedSeries where
  lstn_improvement_volt : List PFloat
  rstn_improvement_volt : List PFloat
  lstn_percent_activation : List PFloat
  rstn_percent_activation : List PFloat
deriving DecidableEq

/-- Frame-level model of `compute_stn_activation(lstn_df, dvstn_df,
rstn_df)` of the validated version, up to the derivation of the four score
series (lines 101-105). -/
def compute_stn_activation_frame (lstn_df dvstn_df rstn_df : Frame) :
    Except DataErr DerivedSeries := do
  let lstn_improvement_volt ← process_lstn_activation_frame lstn_df
  let rstn_improvement_volt ← process_lstn_activation_frame rstn_df
  let lstn_percent_activation ← process_stn_activation_frame dvstn_df "L"
  let rstn_percent_activation ← process_stn_activation_frame dvstn_df "R"
  pure ⟨lstn_improvement_volt, rstn_improvement_volt,
        lstn_percent_activation, rstn_percent_activation⟩

/-- A parsed workbook: the sheets in file order, each with its name, i.e.
the result of `excel.parse(sheet_name)` for every `sheet_name` in
`excel.sheet_names`. -/
abbrev Workbook := List (String × Frame)

/-- The three required sheet names of the validated version. -/
def requiredSheets : List String := ["LSTN_activation", "dvSTN_activation", "RSTN_activation"]

/-- The constant `sheet_list` interpolated into the `MissingSheet` warning
by `main`. -/
def sheet_list : String := String.intercalate ", " requiredSheets

/-- Model of `convert_sheets_to_df_dicts(excel)` (lines 76-89 of the
validated version): build the name-to-dataframe dictionary, then raise
`KeyError` if any of the three required sheet names is absent. -/
def convert_sheets_to_df_dicts (wb : Workbook) : Except DataErr Workbook :=
  let sheet_dict := wb
  if "LSTN_activation" ∉ sheet_dict.map Prod.fst ∨
      "dvSTN_activation" ∉ sheet_dict.map Prod.fst ∨
      "RSTN_activation" ∉ sheet_dict.map Prod.fst then
    .error .keyError
  else
    .ok sheet_dict

/-- Dictionary access `sheet_dict[k]`: a Python dict keeps the last value
bound to a key, and a missing key raises `KeyError`. -/
def dict_get (wb : Workbook) (k : String) : Except DataErr Frame :=
  match wb.reverse.lookup k with
  | some f => .ok f
  | none => .error .keyError

/-- Model of `process_excel(input_excel)` of the validated version: parse
the workbook into the sheet dictionary and run the derivations on the three
required sheets. -/
def process_excel (wb : Workbook) : Except DataErr DerivedSeries := do
  let sheet_dict ← convert_sheets_to_df_dicts wb
  let lstn ← dict_get sheet_dict "LSTN_activation"
  let dvstn ← dict_get sheet_dict "dvSTN_activation"
  let rstn ← dict_get sheet_dict "RSTN_activation"
  compute_stn_activation_frame lstn dvstn rstn

/-- The exceptions `main` of the validated version distinguishes. -/
inductive PyExc where
  | fileNotFoundError
  | typeError
  | keyError
deriving DecidableEq

/-- The environment a run of the validated script sees: whether
`os.path.isfile` holds for the given path, and the workbook the file parses
to. -/
structure Env where
  isfile : Bool
  workbook : Workbook

/-- Model of `get_args(argv)` of the validated version: raises
`FileNotFoundError` when the path is not an existing file. -/
def get_args (e : Env) : Except PyExc Unit :=
  if e.isfile then .ok () else .error .fileNotFoundError

/-- The body of `main`'s `try` block: `get_args` then `process_excel`,
with the data errors of the pipeline surfacing as Python exceptions. -/
def mainRun (e : Env) : Except PyExc DerivedSeries := do
  let _ ← get_args e
  (process_excel e.workbook).mapError fun
    | .keyError => PyExc.keyError
    | .typeError => PyExc.typeError

/-- An exception raised inside `main`'s `FileNotFoundError` handler that no
clause of the `try` statement catches: evaluating `argv[1]` in the warning
f-string raises `TypeError` when `argv` is `None` and `IndexError` when the
list is too short; either escapes `main`. -/
inductive UncaughtExc where
  | typeError
  | indexError
deriving DecidableEq

/-- Model of `main(argv)` (lines 28-41 of the validated version), with the
`argv` parameter as passed by the caller: on success the returned status is
`None` (`main` falls off the end of the `try` block); the `TypeError` and
`KeyError` handlers return `INVALID_DATA` with their warnings; the
`FileNotFoundError` handler first evaluates `argv[1]` for its warning
f-string — `get_args` rebinds only its own local, so when the file is
missing this reads the `argv` that was passed to `main` — and only if that
succeeds does it return `IO_ERROR`; with `argv = None` the evaluation
raises an uncaught `TypeError` instead. -/
def main_validated (argv : Option (List String)) (e : Env) :
    Except UncaughtExc (Option ℕ × List String) :=
  match mainRun e with
  | .ok _ => .ok (none, [])
  | .error .fileNotFoundError =>
      match argv with
      | none => .error .typeError
      | some args =>
          match args[1]? with
          | some a => .ok (some IO_ERROR, ["Given input excel - " ++ a ++ " does not exist"])
          | none => .error .indexError
  | .error .typeError => .ok (some INVALID_DATA, [])
  | .error .keyError =>
      .ok (some INVALID_DATA, ["Given excel input should have sheets (" ++ sheet_list ++ ")"])

/-- The process exit code of `python pd_clinical_outcome_stats.py ...`: the
script runs `status = main()` — so `argv = None` inside `main` — and then
`sys.exit(status)`, where `sys.exit(None)` exits with code `0`; an
exception escaping `main` makes CPython print a traceback and exit with
code `1`. -/
def processExitCode (e : Env) : ℕ :=
  match main_validated none e with
  | .ok (st, _) => st.getD SUCCESS
  | .error _ => 1

/-- The exit code of the process invocation. -/
def exitCode (e : Env) : ℕ := processExitCode e

/-- The warnings `main` writes to stderr in the process invocation; when
the handler itself crashes, its warning is never printed. -/
def mainWarnings (e : Env) : List String :=
  match main_validated none e with
  | .ok (_, w) => w
  | .error _ => []

/-- Column name `'dSTN vol (' + side + ') [mm3]'` of the earlier version. -/
def dstn_vol_col (side : String) : String := "dSTN vol (" ++ side ++ ") [mm3]"

/-- Column name `'vSTN vol (' + side + ') [mm3]'` of the earlier version. -/
def vstn_vol_col (side : String) : String := "vSTN vol (" ++ side ++ ") [mm3]"

/-- Column name `'VTA inside dSTN (' + side + ') [mm3]'` of the earlier
version. -/
def vta_inside_dstn_col (side : String) : String := "VTA inside dSTN (" ++ side ++ ") [mm3]"

/-- Column name `'VTA inside vSTN (' + side + ') [mm3]'` of the earlier
version. -/
def vta_inside_vstn_col (side : String) : String := "VTA inside vSTN (" ++ side ++ ") [mm3]"

/-- Frame-level model of the earlier `process_stn_activation(df, side)`
(`compute_co-relations.py`, lines 86-98): sort by `Patient`, sum the dorsal
and ventral columns per side, and compute
`(left_active_stn / left_stn_vol) * 100`. -/
def process_stn_activation_696_frame (df : Frame) (side : String) :
    Except DataErr (List PFloat) := do
  let df ← sort_values df
  let dstn_vol ← getCol df (dstn_vol_col side)
  let vstn_vol ← getCol df (vstn_vol_col side)
  let left_stn_vol ← seriesAddCC dstn_vol vstn_vol
  let vta_inside_dstn ← getCol df (vta_inside_dstn_col side)
  let vta_inside_vstn ← getCol df (vta_inside_vstn_col side)
  let left_active_stn ← seriesAddCC vta_inside_dstn vta_inside_vstn
  let quotients := List.zipWith qdiv left_active_stn left_stn_vol
  pure (quotients.map (·.mulq 100))

/-- Frame-level model of `compute_stn_activation` of the earlier version
(`compute_co-relations.py`, lines 57-70), up to the four derived series. -/
def compute_stn_activation_696_frame (lstn_df dvstn_df rstn_df : Frame) :
    Except DataErr DerivedSeries := do
  let lstn_improvement_volt ← process_lstn_activation_frame lstn_df
  let rstn_improvement_volt ← process_lstn_activation_frame rstn_df
  let lstn_percent_activation ← process_stn_activation_696_frame dvstn_df "L"
  let rstn_percent_activation ← process_stn_activation_696_frame dvstn_df "R"
  pure ⟨lstn_improvement_volt, rstn_improvement_volt,
        lstn_percent_activation, rstn_percent_activation⟩

/-- The terminal conditions of the earlier version's loader
(`compute_co-relations.py`, `get_args`, lines 26-39): `FileNotFoundError`
when the path is not an existing file, and the `EmptyInput` failure (an
error message followed by `sys.exit(1)`) when the file is zero bytes. -/
inductive Exc696 where
  | fileNotFoundError
  | emptyInput
  | dataExc (d : DataErr)
deriving DecidableEq

/-- Model of `get_args()` of the earlier version: `FileNotFoundError` if
`os.path.isfile` fails, then the `EmptyInput` exit if `os.stat(...).st_size
== 0`; only otherwise does it return the path for parsing. -/
def get_args_696 (isfile : Bool) (st_size : ℕ) : Except Exc696 Unit :=
  if ¬ isfile then .error .fileNotFoundError
  else if st_size = 0 then .error .emptyInput
  else .ok ()

/-- Model of `convert_sheets_to_df_dicts` of the earlier version (lines
50-54): builds the dictionary with no required-sheet check. -/
def convert_sheets_to_df_dicts_696 (wb : Workbook) : Workbook := wb

/-- Model of `process_excel` of the earlier version (lines 42-47): parse the
workbook and run the derivations; a missing sheet surfaces as `KeyError` at
dictionary access. -/
def process_excel_696 (wb : Workbook) : Except DataErr DerivedSeries := do
  let sheet_dict := convert_sheets_to_df_dicts_696 wb
  let lstn ← dict_get sheet_dict "LSTN_activation"
  let dvstn ← dict_get sheet_dict "dvSTN_activation"
  let rstn ← dict_get sheet_dict "RSTN_activation"
  compute_stn_activation_696_frame lstn dvstn rstn

/-- Model of `main()` of the earlier version (lines 20-23): `get_args`
first — so a zero-byte file terminates the run before the workbook is ever
parsed — then `process_excel` on the parsed workbook. -/
def main_696 (isfile : Bool) (st_size : ℕ) (wb : Workbook) : Except Exc696 DerivedSeries := do
  let _ ← get_args_696 isfile st_size
  (process_excel_696 wb).mapError .dataExc

/-- Average rank (the `scipy.stats.rankdata` tie policy) of the value `v`
within the pooled data `all`: the count of strictly smaller entries plus the
average of the 1-based rank positions occupied by the entries equal to `v`. -/
def rankOf (all : List ℚ) (v : ℚ) : ℚ :=
  ((all.countP fun b => decide (b < v) : ℕ) : ℚ) +
    (((all.countP fun b => decide (b = v) : ℕ) : ℚ) + 1) / 2

/-- The rank sum `s` of `scipy.stats.ranksums(x, y)`: ranks are pooled over
the concatenation `x ++ y` and summed over the entries of `x`. -/
def rankSum (x y : List ℚ) : ℚ := (x.map (rankOf (x ++ y))).sum

/-- Count (as a rational) of entries of `l` strictly below `v`. -/
def cLt (l : List ℚ) (v : ℚ) : ℚ := ((l.countP fun b => decide (b < v) : ℕ) : ℚ)

/-- Count (as a rational) of entries of `l` equal to `v`. -/
def cEq (l : List ℚ) (v : ℚ) : ℚ := ((l.countP fun b => decide (b = v) : ℕ) : ℚ)

/-- Count (as a rational) of entries of `l` strictly above `v`. -/
def cGt (l : List ℚ) (v : ℚ) : ℚ := ((l.countP fun b => decide (v < b) : ℕ) : ℚ)

/-- Extended real value: a finite real, a signed infinity, or `nan`; the
value domain of the statistic and p-value numpy floats. -/
inductive RFloat where
  | num (r : ℝ)
  | inf
  | ninf
  | nan

/-- IEEE division of extended reals as numpy performs it; in particular
`0 / 0 = nan` and `a / 0 = ±inf` for finite nonzero `a`. -/
noncomputable def RFloat.div : RFloat → RFloat → RFloat
  | .num a, .num b =>
      if b = 0 then (if a = 0 then .nan else if 0 < a then .inf else .ninf)
      else .num (a / b)
  | .num _, .inf => .num 0
  | .num _, .ninf => .num 0
  | .inf, .num b => if b < 0 then .ninf else .inf
  | .ninf, .num b => if b < 0 then .inf else .ninf
  | _, _ => .nan

/-- numpy square root on extended reals: `nan` on negative input. -/
noncomputable def RFloat.sqrt : RFloat → RFloat
  | .num a => if a < 0 then .nan else .num (Real.sqrt a)
  | .inf => .inf
  | .ninf => .nan
  | .nan => .nan

/-- numpy absolute value on extended reals. -/
noncomputable def RFloat.abs : RFloat → RFloat
  | .num a => .num |a|
  | .inf => .inf
  | .ninf => .inf
  | .nan => .nan

/-- Survival function of the standard normal distribution,
`scipy.stats.norm.sf`. -/
noncomputable def normSF (t : ℝ) : ℝ := ∫ u in Set.Ioi t, gaussianPDFReal 0 1 u

/-- `scipy.stats.norm.sf` extended to the numpy value domain. -/
noncomputable def RFloat.sf : RFloat → RFloat
  | .num t => .num (normSF t)
  | .inf => .num 0
  | .ninf => .num 1
  | .nan => .nan

/-- Doubling on extended reals, for `prob = 2 * norm.sf(...)`. -/
noncomputable def RFloat.double : RFloat → RFloat
  | .num r => .num (2 * r)
  | .inf => .inf
  | .ninf => .ninf
  | .nan => .nan

/-- Model of `scipy.stats.ranksums(x, y)`: pooled average ranks, the
normal-approximation statistic
`z = (s - n1*(n1+n2+1)/2) / sqrt(n1*n2*(n1+n2+1)/12)`, and the two-sided
p-value `2 * norm.sf(|z|)`. -/
noncomputable def ranksums (x y : List ℚ) : RFloat × RFloat :=
  let n1 : ℚ := x.length
  let n2 : ℚ := y.length
  let s : ℚ := rankSum x y
  let expected : ℚ := n1 * (n1 + n2 + 1) / 2
  let z : RFloat :=
    RFloat.div (.num (((s - expected : ℚ) : ℝ)))
      (RFloat.sqrt (.num ((n1 * n2 * (n1 + n2 + 1) / 12 : ℚ) : ℝ)))
  let prob : RFloat := (z.abs.sf).double
  (z, prob)

/-- Model of `perform_wilcoxon_rank_test(x, y)` (lines 166-173 of the
validated version): it simply returns `scipy.stats.ranksums(x, y)`. -/
noncomputable def perform_wilcoxon_rank_test (x y : List ℚ) : RFloat × RFloat :=
  ranksums x y

theorem process_lstn_activation_eq_map (df : List MotorRecord) :
    process_lstn_activation df =
      (List.insertionSort leMotor df).map
        (fun r => (qdiv r.motor_score_off_stim r.motor_score_on_stim).divq r.voltage) := by
  simp [process_lstn_activation, List.zipWith_map, List.zipWith_same]

theorem process_stn_activation_eq_map (df : List VolumeRecord) (side : Side) :
    process_stn_activation df side =
      (List.insertionSort leVolume df).map
        (fun r => (qdiv (r.vta_inside_stn side) (r.stn_vol side)).mulq 100) := by
  simp [process_stn_activation, List.zipWith_map, List.zipWith_same,
    List.map_map, Function.comp_def]

theorem process_stn_activation_696_eq_map (df : List VolumeRecord) (side : Side) :
    process_stn_activation_696 df side =
      (List.insertionSort leVolume df).map
        (fun r => (qdiv (r.vta_inside_dstn side + r.vta_inside_vstn side)
          (r.dstn_vol side + r.vstn_vol side)).mulq 100) := by
  simp [process_stn_activation_696, List.zipWith_map, List.zipWith_same,
    List.map_map, Function.comp_def]

/-- C1: the improvement-score operation first sorts the rows by the
`Patient` identifier and then maps every row to
`(off_stim_score / on_stim_score) / voltage`, one score per row in sort
order; on the three example rows `(1, on=10, off=20, V=2)`,
`(2, on=5, off=15, V=1)`, `(3, on=8, off=8, V=4)` it returns
`[1.0, 3.0, 0.25]`. -/
theorem improvement_score_sorts_then_divides :
    (∀ df : List MotorRecord,
        process_lstn_activation df =
          (List.insertionSort leMotor df).map
            (fun r => (qdiv r.motor_score_off_stim r.motor_score_on_stim).divq r.voltage)) ∧
      process_lstn_activation
          [⟨1, "L", 10, 20, 2⟩, ⟨2, "L", 5, 15, 1⟩, ⟨3, "L", 8, 8, 4⟩] =
        [.num 1, .num 3, .num 0.25] := by
  refine ⟨process_lstn_activation_eq_map, ?_⟩
  rw [process_lstn_activation_eq_map]
  norm_num [List.insertionSort, List.orderedInsert, leMotor, qdiv, PFloat.divq]

/-- C2: the validated percent-activation operation sorts the rows by the
`Patient` identifier, selects the side-tagged columns — named
`STN vol (<side>) [mm3]` and `VTA inside STN (<side>) [mm3]` — and maps
every row to `(activated_volume / structure_volume) * 100`. -/
theorem percent_activation_sorts_selects_divides :
    (∀ (df : List VolumeRecord) (side : Side),
        process_stn_activation df side =
          (List.insertionSort leVolume df).map
            (fun r => (qdiv (r.vta_inside_stn side) (r.stn_vol side)).mulq 100)) ∧
      stn_vol_col "L" = "STN vol (L) [mm3]" ∧
      vta_inside_stn_col "L" = "VTA inside STN (L) [mm3]" ∧
      stn_vol_col "R" = "STN vol (R) [mm3]" ∧
      vta_inside_stn_col "R" = "VTA inside STN (R) [mm3]" :=
  ⟨process_stn_activation_eq_map, rfl, rfl, rfl, rfl⟩

/-- C9: on any volume dataset whose total-volume columns agree row-wise with
the sums of the dorsal and ventral sub-columns for the requested side, the
validated single-column percent activation and the earlier summed
two-column percent activation return equal score sequences. -/
theorem percent_activation_single_eq_summed (df : List VolumeRecord) (side : Side)
    (hvol : ∀ r ∈ df, r.stn_vol side = r.dstn_vol side + r.vstn_vol side)
    (hact : ∀ r ∈ df, r.vta_inside_stn side = r.vta_inside_dstn side + r.vta_inside_vstn side) :
    process_stn_activation df side = process_stn_activation_696 df side := by
  rw [process_stn_activation_eq_map, process_stn_activation_696_eq_map]
  refine List.map_congr_left fun r hr => ?_
  have hr' : r ∈ df := ((List.perm_insertionSort leVolume df).mem_iff).mp hr
  rw [hvol r hr', hact r hr']

/-- Witness for C9 at a concrete one-row dataset whose total columns equal
the dorsal+ventral sums. -/
theorem percent_activation_single_eq_summed_witness :
    process_stn_activation [⟨1, 3, 7, 2, 5, 1, 3, 2, 4, 1, 2, 1, 3⟩] Side.L =
      process_stn_activation_696 [⟨1, 3, 7, 2, 5, 1, 3, 2, 4, 1, 2, 1, 3⟩] Side.L :=
  percent_activation_single_eq_summed _ _
    (by
      intro r hr
      rw [List.mem_singleton] at hr
      subst hr
      norm_num [VolumeRecord.stn_vol, VolumeRecord.dstn_vol, VolumeRecord.vstn_vol])
    (by
      intro r hr
      rw [List.mem_singleton] at hr
      subst hr
      norm_num [VolumeRecord.vta_inside_stn, VolumeRecord.vta_inside_dstn,
        VolumeRecord.vta_inside_vstn])

/-- C10: both derivations preserve row count — one score per input row —
so equal-length input sheets always yield equal-length score sequences. -/
theorem derivations_preserve_row_count :
    (∀ df : List MotorRecord, (process_lstn_activation df).length = df.length) ∧
      (∀ (df : List VolumeRecord) (side : Side),
        (process_stn_activation df side).length = df.length) ∧
      (∀ d₁ d₂ : List MotorRecord, d₁.length = d₂.length →
        (process_lstn_activation d₁).length = (process_lstn_activation d₂).length) ∧
      (∀ (d₁ : List MotorRecord) (d₂ : List VolumeRecord) (side : Side),
        d₁.length = d₂.length →
        (process_lstn_activation d₁).length = (process_stn_activation d₂ side).length) := by
  have h₁ : ∀ df : List MotorRecord, (process_lstn_activation df).length = df.length := by
    intro df
    rw [process_lstn_activation_eq_map, List.length_map,
      (List.perm_insertionSort leMotor df).length_eq]
  have h₂ : ∀ (df : List VolumeRecord) (side : Side),
      (process_stn_activation df side).length = df.length := by
    intro df side
    rw [process_stn_activation_eq_map, List.length_map,
      (List.perm_insertionSort leVolume df).length_eq]
  exact ⟨h₁, h₂, fun d₁ d₂ h => by rw [h₁, h₁, h],
    fun d₁ d₂ side h => by rw [h₁, h₂, h]⟩

/-- Witness for C10 on concrete equal-length sheets. -/
theorem derivations_preserve_row_count_witness :
    (process_lstn_activation [⟨1, "L", 10, 20, 2⟩]).length =
      (process_lstn_activation [⟨4, "R", 5, 15, 1⟩]).length :=
  derivations_preserve_row_count.2.2.1 _ _ rfl

/-- C6 counterexample: on a dataset whose single row has structure volume
`0` and activated volume `5`, the validated percent activation raises
nothing and returns the numeric-series value `[inf]` — pandas division by
zero yields an infinity, not a `MalformedRecord` error. -/
theorem percent_activation_zero_volume_counterexample :
    process_stn_activation [⟨1, 0, 0, 5, 5, 0, 0, 0, 0, 0, 0, 0, 0⟩] Side.L =
      [PFloat.inf] := by
  rw [process_stn_activation_eq_map]
  norm_num [List.insertionSort, List.orderedInsert, qdiv, PFloat.mulq,
    VolumeRecord.stn_vol, VolumeRecord.vta_inside_stn]

/-- C6 amended: for a patient row with structure volume `0`, percent
activation does not raise; the row yields `inf` when the activated volume
is positive (and `-inf` or `nan` for negative or zero activated volume). -/
theorem percent_activation_zero_volume_amended (df : List VolumeRecord) (side : Side)
    (r : VolumeRecord) (hr : r ∈ df) (hvol : r.stn_vol side = 0)
    (hact : 0 < r.vta_inside_stn side) :
    PFloat.inf ∈ process_stn_activation df side := by
  rw [process_stn_activation_eq_map]
  refine List.mem_map.mpr ⟨r, ((List.perm_insertionSort leVolume df).mem_iff).mpr hr, ?_⟩
  simp [qdiv, PFloat.mulq, hvol, hact, hact.ne']

/-- Witness for the amended C6 at a concrete dataset. -/
theorem percent_activation_zero_volume_amended_witness :
    PFloat.inf ∈ process_stn_activation [⟨2, 0, 1, 3, 1, 0, 0, 0, 0, 0, 0, 0, 0⟩] Side.L :=
  percent_activation_zero_volume_amended
    [⟨2, 0, 1, 3, 1, 0, 0, 0, 0, 0, 0, 0, 0⟩] Side.L
    ⟨2, 0, 1, 3, 1, 0, 0, 0, 0, 0, 0, 0, 0⟩
    (List.mem_singleton.mpr rfl) rfl (by norm_num [VolumeRecord.vta_inside_stn])

/-- C4: a parsed workbook lacking any of the three required sheet names
makes the loader fail with the missing-sheet `KeyError`, which `main`
reports with the list of required sheet names and turns into the
invalid-data exit code. -/
theorem missing_sheet_fails_with_invalid_data (wb : Workbook)
    (h : "LSTN_activation" ∉ wb.map Prod.fst ∨ "dvSTN_activation" ∉ wb.map Prod.fst ∨
      "RSTN_activation" ∉ wb.map Prod.fst) :
    convert_sheets_to_df_dicts wb = .error .keyError ∧
      exitCode ⟨true, wb⟩ = INVALID_DATA ∧
      mainWarnings ⟨true, wb⟩ =
        ["Given excel input should have sheets (LSTN_activation, dvSTN_activation, RSTN_activation)"] := by
  have hconv : convert_sheets_to_df_dicts wb = .error .keyError := by
    unfold convert_sheets_to_df_dicts
    rw [if_pos h]
  have hrun : mainRun ⟨true, wb⟩ = .error .keyError := by
    have : process_excel wb = .error .keyError := by
      unfold process_excel
      rw [hconv]
      rfl
    unfold mainRun get_args
    rw [this]
    rfl
  refine ⟨hconv, ?_, ?_⟩
  · simp [exitCode, processExitCode, main_validated, hrun, INVALID_DATA]
  · have hmsg : mainWarnings ⟨true, wb⟩ =
        ["Given excel input should have sheets (" ++ sheet_list ++ ")"] := by
      simp [mainWarnings, main_validated, hrun]
    rw [hmsg]
    decide

/-- Witness for C4: a workbook holding only two of the three required
sheets. -/
theorem missing_sheet_fails_with_invalid_data_witness :
    convert_sheets_to_df_dicts [("LSTN_activation", []), ("dvSTN_activation", [])] =
        .error .keyError ∧
      exitCode ⟨true, [("LSTN_activation", []), ("dvSTN_activation", [])]⟩ = INVALID_DATA ∧
      mainWarnings ⟨true, [("LSTN_activation", []), ("dvSTN_activation", [])]⟩ =
        ["Given excel input should have sheets (LSTN_activation, dvSTN_activation, RSTN_activation)"] :=
  missing_sheet_fails_with_invalid_data _ (Or.inr (Or.inr (by decide)))

/-- C5: the claimed exit code `2` for a missing input file is the code's
clear intent — the `FileNotFoundError` handler returns the constant
`IO_ERROR = 2` — but the process invocation is `status = main()`, so inside
`main` the parameter `argv` stays `None`; on a missing file the handler
first evaluates `argv[1]` for its warning f-string, which raises an
uncaught `TypeError`, and CPython exits with code `1`, not `2`. The
intended `IO_ERROR` is produced only when `main` is called with an explicit
argument list of at least two entries. Codes `0` (success) and `1` (invalid
or malformed data) behave as claimed. -/
theorem missing_file_exit_code_bug (wb : Workbook) :
    main_validated none ⟨false, wb⟩ = .error .typeError ∧
      processExitCode ⟨false, wb⟩ = 1 ∧
      IO_ERROR = 2 ∧
      main_validated (some ["-c", "input.xlsx"]) ⟨false, wb⟩ =
        .ok (some IO_ERROR, ["Given input excel - input.xlsx does not exist"]) ∧
      (∀ e : Env, processExitCode e = SUCCESS ↔
        e.isfile = true ∧ ∃ out, process_excel e.workbook = .ok out) ∧
      (∀ e : Env, processExitCode e = INVALID_DATA ↔
        (e.isfile = false ∨ process_excel e.workbook = .error .keyError ∨
          process_excel e.workbook = .error .typeError)) := by
  have hrun : mainRun ⟨false, wb⟩ = .error .fileNotFoundError := rfl
  refine ⟨by simp [main_validated, hrun], by simp [processExitCode, main_validated, hrun],
    rfl, ?_, ?_, ?_⟩
  · have hmem : main_validated (some ["-c", "input.xlsx"]) ⟨false, wb⟩ =
        match (["-c", "input.xlsx"] : List String)[1]? with
        | some a => .ok (some IO_ERROR, ["Given input excel - " ++ a ++ " does not exist"])
        | none => .error .indexError := by
      unfold main_validated
      rw [hrun]
    rw [hmem]
    rfl
  · rintro ⟨isf, wbe⟩
    cases isf with
    | false =>
      have hrunf : mainRun ⟨false, wbe⟩ = .error .fileNotFoundError := rfl
      simp [processExitCode, main_validated, hrunf, SUCCESS, INVALID_DATA]
    | true =>
      rcases h : process_excel wbe with err | out
      · cases err with
        | keyError =>
          have hrunt : mainRun ⟨true, wbe⟩ = .error .keyError := by
            unfold mainRun get_args
            rw [h]
            rfl
          simp [processExitCode, main_validated, hrunt, h, SUCCESS, INVALID_DATA]
        | typeError =>
          have hrunt : mainRun ⟨true, wbe⟩ = .error .typeError := by
            unfold mainRun get_args
            rw [h]
            rfl
          simp [processExitCode, main_validated, hrunt, h, SUCCESS, INVALID_DATA]
      · have hrunt : mainRun ⟨true, wbe⟩ = .ok out := by
          unfold mainRun get_args
          rw [h]
          rfl
        simp [processExitCode, main_validated, hrunt, h, SUCCESS, INVALID_DATA]
  · rintro ⟨isf, wbe⟩
    cases isf with
    | false =>
      have hrunf : mainRun ⟨false, wbe⟩ = .error .fileNotFoundError := rfl
      simp [processExitCode, main_validated, hrunf, SUCCESS, INVALID_DATA]
    | true =>
      rcases h : process_excel wbe with err | out
      · cases err with
        | keyError =>
          have hrunt : mainRun ⟨true, wbe⟩ = .error .keyError := by
            unfold mainRun get_args
            rw [h]
            rfl
          simp [processExitCode, main_validated, hrunt, h, SUCCESS, INVALID_DATA]
        | typeError =>
          have hrunt : mainRun ⟨true, wbe⟩ = .error .typeError := by
            unfold mainRun get_args
            rw [h]
            rfl
          simp [processExitCode, main_validated, hrunt, h, SUCCESS, INVALID_DATA]
      · have hrunt : mainRun ⟨true, wbe⟩ = .ok out := by
          unfold mainRun get_args
          rw [h]
          rfl
        simp [processExitCode, main_validated, hrunt, h, SUCCESS, INVALID_DATA]

/-- C8: for an existing zero-byte input file, the earlier version's loader
terminates with the `EmptyInput` failure before the workbook is parsed:
whatever the workbook would have contained, the run never reaches
`process_excel`. -/
theorem empty_input_stops_loader (wb : Workbook) :
    get_args_696 true 0 = .error .emptyInput ∧
      main_696 true 0 wb = .error .emptyInput :=
  ⟨rfl, rfl⟩

theorem rankOf_eq (l : List ℚ) (v : ℚ) : rankOf l v = cLt l v + (cEq l v + 1) / 2 := rfl

theorem cLt_cons (b : ℚ) (t : List ℚ) (v : ℚ) :
    cLt (b :: t) v = cLt t v + if b < v then 1 else 0 := by
  by_cases h : b < v <;> simp [cLt, List.countP_cons, h]

theorem cEq_cons (b : ℚ) (t : List ℚ) (v : ℚ) :
    cEq (b :: t) v = cEq t v + if b = v then 1 else 0 := by
  by_cases h : b = v <;> simp [cEq, List.countP_cons, h]

theorem cGt_cons (b : ℚ) (t : List ℚ) (v : ℚ) :
    cGt (b :: t) v = cGt t v + if v < b then 1 else 0 := by
  by_cases h : v < b <;> simp [cGt, List.countP_cons, h]

theorem cLt_append (l₁ l₂ : List ℚ) (v : ℚ) :
    cLt (l₁ ++ l₂) v = cLt l₁ v + cLt l₂ v := by
  simp [cLt, List.countP_append]

theorem cEq_append (l₁ l₂ : List ℚ) (v : ℚ) :
    cEq (l₁ ++ l₂) v = cEq l₁ v + cEq l₂ v := by
  simp [cEq, List.countP_append]

theorem sum_map_add {α : Type} (l : List α) (f g : α → ℚ) :
    (l.map fun a => f a + g a).sum = (l.map f).sum + (l.map g).sum := by
  induction l with
  | nil => simp
  | cons b t ih => simp only [List.map_cons, List.sum_cons, ih]; ring

theorem sum_map_constant {α : Type} (l : List α) (c : ℚ) :
    (l.map fun _ => c).sum = (l.length : ℚ) * c := by
  induction l with
  | nil => simp
  | cons b t ih => simp only [List.map_cons, List.sum_cons, ih, List.length_cons]; push_cast; ring

theorem sum_map_mul_left {α : Type} (l : List α) (c : ℚ) (f : α → ℚ) :
    (l.map fun a => c * f a).sum = c * (l.map f).sum := by
  induction l with
  | nil => simp
  | cons b t ih => simp only [List.map_cons, List.sum_cons, ih]; ring

theorem sum_map_lt_indicator (x : List ℚ) (b : ℚ) :
    (x.map fun a => if b < a then (1 : ℚ) else 0).sum = cGt x b := by
  induction x with
  | nil => simp [cGt]
  | cons c t ih => by_cases h : b < c <;> simp [cGt_cons, h, ih, add_comm]

theorem sum_map_eq_indicator (x : List ℚ) (b : ℚ) :
    (x.map fun a => if b = a then (1 : ℚ) else 0).sum = cEq x b := by
  induction x with
  | nil => simp [cEq]
  | cons c t ih =>
    by_cases h : c = b
    · subst h
      simp [cEq_cons, ih, add_comm]
    · have h' : ¬ b = c := fun hh => h hh.symm
      simp [cEq_cons, h, h', ih]

theorem count_trichotomy (x : List ℚ) (b : ℚ) :
    cLt x b + cEq x b + cGt x b = (x.length : ℚ) := by
  induction x with
  | nil => simp [cLt, cEq, cGt]
  | cons c t ih =>
    rw [cLt_cons, cEq_cons, cGt_cons, List.length_cons]
    push_cast
    rcases lt_trichotomy c b with h | h | h
    · rw [if_pos h, if_neg h.ne, if_neg (lt_asymm h)]; linarith
    · rw [if_neg (h.symm.le.not_lt), if_pos h, if_neg (h.le.not_lt)]; linarith
    · rw [if_neg (lt_asymm h), if_neg (LT.lt.ne' h), if_pos h]; linarith

theorem rank_weight_sum_pair (x : List ℚ) : ∀ y : List ℚ,
    (x.map fun a => 2 * cLt y a + cEq y a).sum +
        (y.map fun a => 2 * cLt x a + cEq x a).sum =
      2 * (x.length : ℚ) * (y.length : ℚ)
  | [] => by
    have h0 : (x.map fun a => 2 * cLt [] a + cEq [] a).sum = (x.map fun _ => (0 : ℚ)).sum := by
      apply congrArg
      apply List.map_congr_left
      intro a _
      simp [cLt, cEq]
    rw [h0, sum_map_constant]
    simp
  | b :: t => by
    have hsplit : (x.map fun a => 2 * cLt (b :: t) a + cEq (b :: t) a).sum =
        (x.map fun a => 2 * cLt t a + cEq t a).sum +
          (2 * (x.map fun a => if b < a then (1 : ℚ) else 0).sum +
            (x.map fun a => if b = a then (1 : ℚ) else 0).sum) := by
      have hfun : (x.map fun a => 2 * cLt (b :: t) a + cEq (b :: t) a) =
          x.map fun a => (2 * cLt t a + cEq t a) +
            (2 * (if b < a then (1 : ℚ) else 0) + (if b = a then (1 : ℚ) else 0)) := by
        apply List.map_congr_left
        intro a _
        rw [cLt_cons, cEq_cons]
        ring
      rw [hfun, sum_map_add]
      have h2 : (x.map fun a =>
          2 * (if b < a then (1 : ℚ) else 0) + (if b = a then (1 : ℚ) else 0)).sum =
          2 * (x.map fun a => if b < a then (1 : ℚ) else 0).sum +
            (x.map fun a => if b = a then (1 : ℚ) else 0).sum := by
        rw [sum_map_add]
        congr 1
        rw [← sum_map_mul_left]
      rw [h2]
    rw [hsplit, sum_map_lt_indicator, sum_map_eq_indicator, List.map_cons, List.sum_cons]
    have ih := rank_weight_sum_pair x t
    have htri := count_trichotomy x b
    rw [List.length_cons]
    push_cast
    nlinarith [ih, htri]

theorem rank_weight_sum_self (x : List ℚ) :
    (x.map fun a => 2 * cLt x a + cEq x a).sum = (x.length : ℚ) * (x.length : ℚ) := by
  have h := rank_weight_sum_pair x x
  nlinarith [h]

theorem rankSum_self (x : List ℚ) :
    rankSum x x = (x.length : ℚ) * ((x.length : ℚ) + (x.length : ℚ) + 1) / 2 := by
  have hfun : x.map (rankOf (x ++ x)) =
      x.map fun a => (2 * cLt x a + cEq x a) + 1 / 2 := by
    apply List.map_congr_left
    intro a _
    rw [rankOf_eq, cLt_append, cEq_append]
    ring
  rw [rankSum, hfun, sum_map_add, rank_weight_sum_self, sum_map_constant]
  ring

theorem rankSum_nil_right (x : List ℚ) :
    rankSum x ([] : List ℚ) = (x.length : ℚ) * ((x.length : ℚ) + 0 + 1) / 2 := by
  have hfun : x.map (rankOf (x ++ ([] : List ℚ))) =
      x.map fun a => (1 / 2) * (2 * cLt x a + cEq x a) + 1 / 2 := by
    apply List.map_congr_left
    intro a _
    rw [List.append_nil, rankOf_eq]
    ring
  rw [rankSum, hfun, sum_map_add, sum_map_mul_left, rank_weight_sum_self, sum_map_constant]
  ring

theorem normSF_zero : normSF 0 = 1 / 2 := by
  have habs : (fun u => gaussianPDFReal 0 1 |u|) = gaussianPDFReal 0 1 := by
    funext u
    simp [gaussianPDFReal, sq_abs]
  have h2 : ∫ u, gaussianPDFReal 0 1 u = 2 * ∫ u in Set.Ioi (0 : ℝ), gaussianPDFReal 0 1 u := by
    conv_lhs => rw [← habs]
    exact integral_comp_abs
  have h1 : ∫ u, gaussianPDFReal 0 1 u = 1 := integral_gaussianPDFReal_eq_one 0 one_ne_zero
  unfold normSF
  linarith

theorem ranksums_eq_expected_pos_var (x y : List ℚ)
    (hs : rankSum x y = (x.length : ℚ) * ((x.length : ℚ) + (y.length : ℚ) + 1) / 2)
    (hv : (0 : ℚ) < (x.length : ℚ) * (y.length : ℚ) * ((x.length : ℚ) + (y.length : ℚ) + 1) / 12) :
    ranksums x y = (.num 0, .num 1) := by
  have hv' : (0 : ℝ) <
      (((x.length : ℚ) * (y.length : ℚ) * ((x.length : ℚ) + (y.length : ℚ) + 1) / 12 : ℚ) : ℝ) :=
    Rat.cast_pos.mpr hv
  have hsub : ((rankSum x y -
      (x.length : ℚ) * ((x.length : ℚ) + (y.length : ℚ) + 1) / 2 : ℚ) : ℝ) = 0 := by
    rw [hs]
    simp
  simp only [ranksums, hsub]
  have hsqrt : RFloat.sqrt (.num
      (((x.length : ℚ) * (y.length : ℚ) * ((x.length : ℚ) + (y.length : ℚ) + 1) / 12 : ℚ) : ℝ)) =
      .num (Real.sqrt
        (((x.length : ℚ) * (y.length : ℚ) * ((x.length : ℚ) + (y.length : ℚ) + 1) / 12 : ℚ) : ℝ)) := by
    rw [RFloat.sqrt]
    exact if_neg (not_lt.mpr hv'.le)
  rw [hsqrt]
  have hdiv : RFloat.div (.num 0) (.num (Real.sqrt
      (((x.length : ℚ) * (y.length : ℚ) * ((x.length : ℚ) + (y.length : ℚ) + 1) / 12 : ℚ) : ℝ))) =
      .num 0 := by
    rw [RFloat.div, if_neg (Real.sqrt_pos.mpr hv').ne', zero_div]
  rw [hdiv]
  simp [RFloat.abs, RFloat.sf, RFloat.double, normSF_zero]

theorem ranksums_eq_expected_zero_var (x y : List ℚ)
    (hs : rankSum x y = (x.length : ℚ) * ((x.length : ℚ) + (y.length : ℚ) + 1) / 2)
    (hv : (x.length : ℚ) * (y.length : ℚ) * ((x.length : ℚ) + (y.length : ℚ) + 1) / 12 = 0) :
    ranksums x y = (.nan, .nan) := by
  have hsub : ((rankSum x y -
      (x.length : ℚ) * ((x.length : ℚ) + (y.length : ℚ) + 1) / 2 : ℚ) : ℝ) = 0 := by
    rw [hs]
    simp
  have hv' : (((x.length : ℚ) * (y.length : ℚ) * ((x.length : ℚ) + (y.length : ℚ) + 1) / 12 : ℚ) : ℝ)
      = 0 := by
    rw [hv]
    simp
  simp only [ranksums, hsub, hv']
  have hsqrt : RFloat.sqrt (.num (0 : ℝ)) = .num 0 := by
    rw [RFloat.sqrt, if_neg (lt_irrefl (0 : ℝ)), Real.sqrt_zero]
  rw [hsqrt]
  have hdiv : RFloat.div (.num (0 : ℝ)) (.num 0) = .nan := by
    rw [RFloat.div, if_pos rfl, if_pos rfl]
  rw [hdiv]
  simp [RFloat.abs, RFloat.sf, RFloat.double]

/-- C3: running the rank-sum comparator on two identical non-empty samples
yields the statistic `0` and the two-sided p-value `1`. -/
theorem ranksums_identical_samples (x : List ℚ) (hx : x ≠ []) :
    perform_wilcoxon_rank_test x x = (RFloat.num 0, RFloat.num 1) := by
  have hn : 0 < x.length := List.length_pos.mpr hx
  have hnq : (0 : ℚ) < (x.length : ℚ) := by exact_mod_cast hn
  unfold perform_wilcoxon_rank_test
  apply ranksums_eq_expected_pos_var x x (rankSum_self x)
  exact div_pos (mul_pos (mul_pos hnq hnq) (by linarith)) (by norm_num)

/-- Witness for C3 on the concrete sample `[1, 2]`. -/
theorem ranksums_identical_samples_witness :
    perform_wilcoxon_rank_test ([(1 : ℚ), 2]) ([(1 : ℚ), 2]) = (RFloat.num 0, RFloat.num 1) :=
  ranksums_identical_samples ([1, 2]) (by simp)

/-- C7 counterexample: on an empty first sample the comparator signals no
error at all — `scipy.stats.ranksums` divides `0` by `0` and returns the
result pair `(nan, nan)`. -/
theorem ranksums_empty_input_counterexample :
    perform_wilcoxon_rank_test ([] : List ℚ) ([1]) = (RFloat.nan, RFloat.nan) := by
  unfold perform_wilcoxon_rank_test
  apply ranksums_eq_expected_zero_var <;> simp [rankSum]

/-- C7 amended: when either input sequence is empty the comparator does not
signal `InsufficientData`; it returns the pair `(nan, nan)`. -/
theorem ranksums_empty_input_amended (x y : List ℚ) (h : x = [] ∨ y = []) :
    perform_wilcoxon_rank_test x y = (RFloat.nan, RFloat.nan) := by
  unfold perform_wilcoxon_rank_test
  rcases h with h | h
  · subst h
    apply ranksums_eq_expected_zero_var <;> simp [rankSum]
  · subst h
    apply ranksums_eq_expected_zero_var
    · simpa using rankSum_nil_right x
    · simp

/-- Witness for the amended C7 on the concrete inputs `[3]` and `[]`. -/
theorem ranksums_empty_input_amended_witness :
    perform_wilcoxon_rank_test ([(3 : ℚ)]) ([] : List ℚ) = (RFloat.nan, RFloat.nan) :=
  ranksums_empty_input_amended ([3]) ([] : List ℚ) (Or.inr rfl)
